import Mathlib

/-!
Verification development for the `space-finder-cdk` repository.

The core under study is `src/services/sqlReplicator.ts`: a handler that
consumes a DynamoDB stream event batch and replicates each record to a
PostgreSQL table `app.spaces` via an `INSERT ... ON CONFLICT (id) DO UPDATE`
upsert and a `DELETE ... WHERE id = $1`, plus the lazily-cached connection
pool `getPool`.  Stream images are modelled post-`unmarshall` (the
marshalled AttributeValue encoding is a bijective wire format and plays no
role in the handler logic).  `new Date()` timestamps are modelled by a
natural-number clock supplied per record; I/O failure of a `db.query` call
is modelled by an injected oracle indexed by record position.
-/

/-- Decidable equality on `Except`, so that closed runs of the handler model
can be settled by evaluation. -/
instance {ε α : Type} [DecidableEq ε] [DecidableEq α] : DecidableEq (Except ε α) := fun a b =>
  match a, b with
  | Except.ok x, Except.ok y =>
    if h : x = y then isTrue (by rw [h])
    else isFalse (fun hh => h (Except.ok.inj hh))
  | Except.error x, Except.error y =>
    if h : x = y then isTrue (by rw [h])
    else isFalse (fun hh => h (Except.error.inj hh))
  | Except.ok _, Except.error _ => isFalse (fun hh => Except.noConfusion hh)
  | Except.error _, Except.ok _ => isFalse (fun hh => Except.noConfusion hh)

/-- A scalar database / JavaScript value as it flows between the unmarshalled
DynamoDB image and the SQL parameters: string, number, boolean, or SQL NULL
(also standing for JavaScript `undefined`/`null` once passed as a parameter).
Nested list/map attribute types are omitted: no column of `app.spaces`
carries them. -/
inductive DbValue
  | str (s : String)
  | num (n : Int)
  | bool (b : Bool)
  | null
deriving DecidableEq, Repr

/-- JavaScript truthiness test on a present value, as used by the `||`
operator in `newImage.photoUrl || null`. -/
def falsy : DbValue → Bool
  | DbValue.str s => s = ""
  | DbValue.num n => n = 0
  | DbValue.bool b => !b
  | DbValue.null => true

/-- The value of `x || null` for an optional attribute `x` of the unmarshalled
image: `none` models an absent attribute (JavaScript `undefined`). -/
def jsOrNull : Option DbValue → DbValue
  | none => DbValue.null
  | some v => if falsy v then DbValue.null else v

/-- Direct attribute access passed as a SQL parameter: an absent attribute is
JavaScript `undefined`, which the `pg` driver sends as SQL NULL. -/
def param : Option DbValue → DbValue
  | none => DbValue.null
  | some v => v

/-- SQL three-valued equality collapsed to a row-selection test: a comparison
involving NULL is UNKNOWN and selects no row. -/
def sqlEq : DbValue → DbValue → Bool
  | DbValue.null, _ => false
  | _, DbValue.null => false
  | a, b => a == b

/-- One row of the sink table `app.spaces`, keyed externally by `id`.
Columns as in the replicator's INSERT statement: `name`, `location`,
`capacity`, `created_at`, `updated_at` (timestamps as abstract clock
values). -/
structure Row where
  name : DbValue
  location : DbValue
  capacity : DbValue
  created_at : Nat
  updated_at : Nat
deriving DecidableEq, Repr

/-- The sink table: an association of key values to rows.  A real `app.spaces`
table has a unique non-null primary key; operations below use first-match
semantics, which coincides with SQL on such tables. -/
def Table := List (DbValue × Row)
deriving DecidableEq, Repr

/-- Query `SELECT ... WHERE id = i`: first row whose key SQL-equals `i`. -/
def findRow : Table → DbValue → Option Row
  | [], _ => none
  | (k, r) :: t, i => if sqlEq k i then some r else findRow t i

/-- The replicator's upsert statement:
`INSERT INTO app.spaces (id, name, location, capacity, created_at, updated_at)
VALUES ($1, $2, $3, $4, $5, $6) ON CONFLICT (id) DO UPDATE SET
name = EXCLUDED.name, location = EXCLUDED.location,
capacity = EXCLUDED.capacity, updated_at = EXCLUDED.updated_at`.
On conflict the stored `created_at` is untouched (it is absent from the
DO UPDATE SET list); on a fresh insert both timestamps are the bound
values, which the handler supplies as `new Date()` twice (modelled as the
single processing time `now`). -/
def upsertRows : Table → DbValue → DbValue → DbValue → DbValue → Nat → Table
  | [], i, nm, loc, cap, now => [(i, ⟨nm, loc, cap, now, now⟩)]
  | (k, r) :: t, i, nm, loc, cap, now =>
    if sqlEq k i then (k, ⟨nm, loc, cap, r.created_at, now⟩) :: t
    else (k, r) :: upsertRows t i nm loc cap now

/-- Statement `DELETE FROM app.spaces WHERE id = $1`: removes every row whose key
SQL-equals the parameter; with a NULL parameter no row matches. -/
def deleteRows : Table → DbValue → Table
  | [], _ => []
  | (k, r) :: t, i => if sqlEq k i then deleteRows t i else (k, r) :: deleteRows t i

/-- Refresh only the `updated_at` column of the (first) row keyed by `i`;
used to characterise what a duplicate upsert adds over a single one. -/
def setUpdatedAt : Table → DbValue → Nat → Table
  | [], _, _ => []
  | (k, r) :: t, i, now =>
    if sqlEq k i then (k, ⟨r.name, r.location, r.capacity, r.created_at, now⟩) :: t
    else (k, r) :: setUpdatedAt t i now

/-- An unmarshalled stream image of a space entry: the attributes the
replicator reads.  `none` models an attribute absent from the image. -/
structure Image where
  id : Option DbValue
  name : Option DbValue
  location : Option DbValue
  capacity : Option DbValue
  photoUrl : Option DbValue
deriving DecidableEq, Repr

/-- The `dynamodb` member of a stream record, carrying the optional images. -/
structure StreamImages where
  NewImage : Option Image
  OldImage : Option Image
deriving DecidableEq, Repr

/-- One DynamoDB stream record as seen by the handler. -/
structure StreamRecord where
  eventID : String
  eventName : String
  dynamodb : Option StreamImages
deriving DecidableEq, Repr

/-- The handler's upsert call for an INSERT/MODIFY record, with the exact
parameter list of the source: `$1 = newImage.id`, `$2 = newImage.name`,
`$3 = newImage.location`, `$4 = newImage.photoUrl || null`,
`$5 = $6 = new Date()` (the processing time `now`). -/
def applyUpsert (tbl : Table) (img : Image) (now : Nat) : Table :=
  upsertRows tbl (param img.id) (param img.name) (param img.location)
    (jsOrNull img.photoUrl) now

/-- The handler's delete call for a REMOVE record: `$1 = oldImage.id`. -/
def applyRemove (tbl : Table) (img : Image) : Table :=
  deleteRows tbl (param img.id)

/-- The handler's `for (const record of event.Records)` loop.  `fail i = true`
means the `db.query` issued for the record at position `i` throws (sink
error); the surrounding try/catch logs and rethrows, so the thrown error
escapes the loop and the handler invocation, modelled as `Except.error ()`.
`clock i` is the `new Date()` value while processing record `i`.  Records
of kind INSERT/MODIFY without a `NewImage`, records of kind REMOVE without
an `OldImage`, and records of any other kind fall through without touching
the sink. -/
def runRecords (fail : Nat → Bool) (clock : Nat → Nat) :
    List StreamRecord → Nat → Table → Except Unit Table
  | [], _, tbl => Except.ok tbl
  | r :: rs, i, tbl =>
    if r.eventName = "INSERT" ∨ r.eventName = "MODIFY" then
      match Option.bind r.dynamodb StreamImages.NewImage with
      | none => runRecords fail clock rs (i + 1) tbl
      | some img =>
        if fail i then Except.error ()
        else runRecords fail clock rs (i + 1) (applyUpsert tbl img (clock i))
    else if r.eventName = "REMOVE" then
      match Option.bind r.dynamodb StreamImages.OldImage with
      | none => runRecords fail clock rs (i + 1) tbl
      | some img =>
        if fail i then Except.error ()
        else runRecords fail clock rs (i + 1) (applyRemove tbl img)
    else runRecords fail clock rs (i + 1) tbl

/-- Whether processing this record issues a `db.query` call (reaches the
sink), i.e. it is an INSERT/MODIFY record carrying a NewImage or a REMOVE
record carrying an OldImage. -/
def touchesSink (r : StreamRecord) : Bool :=
  if r.eventName = "INSERT" ∨ r.eventName = "MODIFY" then
    (Option.bind r.dynamodb StreamImages.NewImage).isSome
  else if r.eventName = "REMOVE" then
    (Option.bind r.dynamodb StreamImages.OldImage).isSome
  else false

/-- The credential pair parsed from the Secrets Manager secret string. -/
structure Secret where
  username : String
  password : String
deriving DecidableEq, Repr

/-- The environment variables `getPool` reads.  `DB_PORT` may be unset
(the code defaults it); the others are asserted non-null with `!` in the
source and the CDK stack always sets them. -/
structure Env where
  DB_SECRET_ARN : String
  DB_HOST : String
  DB_PORT : Option String
  DB_NAME : String
deriving DecidableEq, Repr

/-- Expression `parseInt(process.env.DB_PORT || "5432")`: an unset or empty variable
falls back to the default; a non-numeric string (NaN) is modelled as 0. -/
def portOf : Option String → Nat
  | none => 5432
  | some s => if s = "" then 5432 else (s.toNat?).getD 0

/-- The `pg` pool handle with the construction arguments fixed by the
source: `max: 5`, `idleTimeoutMillis: 30000`, `connectionTimeoutMillis:
10000`. -/
structure Pool where
  host : String
  port : Nat
  database : String
  user : String
  password : String
  max : Nat
  idleTimeoutMillis : Nat
  connectionTimeoutMillis : Nat
deriving DecidableEq, Repr

/-- Value of `new Pool({...})` as constructed in `getPool`. -/
def mkPool (env : Env) (secret : Secret) : Pool :=
  ⟨env.DB_HOST, portOf env.DB_PORT, env.DB_NAME,
   secret.username, secret.password, 5, 30000, 10000⟩

/-- The observable external calls `getPool` can perform. -/
inductive SideEffect
  | secretsFetch
  | poolConstruct
deriving DecidableEq, Repr

/-- Function `getPool` as a transition on the module-level cache `pool` (`st`):
returns the result, the new cache, and the external calls performed.
`fetch` is the outcome of `secretsClient.send(new GetSecretValueCommand ...)`
followed by `JSON.parse`. -/
def getPool (env : Env) (fetch : Except Unit Secret) (st : Option Pool) :
    Except Unit Pool × Option Pool × List SideEffect :=
  match st with
  | some p => (Except.ok p, some p, [])
  | none =>
    match fetch with
    | Except.error e => (Except.error e, none, [SideEffect.secretsFetch])
    | Except.ok secret =>
      (Except.ok (mkPool env secret), some (mkPool env secret),
       [SideEffect.secretsFetch, SideEffect.poolConstruct])

/-- A stream event: the batch of records delivered to one invocation. -/
structure StreamEvent where
  Records : List StreamRecord
deriving DecidableEq, Repr

/-- The whole handler invocation: acquire the pool (a credential failure
propagates), then run the record loop; any error thrown inside the try
block is caught, logged and rethrown unchanged. -/
def handler (env : Env) (fetch : Except Unit Secret) (poolSt : Option Pool)
    (fail : Nat → Bool) (clock : Nat → Nat) (event : StreamEvent)
    (tbl : Table) : Except Unit Table × Option Pool :=
  match getPool env fetch poolSt with
  | (Except.error e, st, _) => (Except.error e, st)
  | (Except.ok _, st, _) => (runRecords fail clock event.Records 0 tbl, st)

/-- Program counter of one logical invocation running `getPool`, at the
granularity of its single suspension point: the synchronous prefix runs
the null check and starts the secrets fetch, then the task suspends at
`await`; on resumption it constructs the pool and stores it. -/
inductive TaskPc
  | start
  | awaitingSecret
  | done
deriving DecidableEq, Repr

/-- Interleaving state of two logical invocations racing on first use:
the shared cache, each program counter, and how many secrets fetches and
pool constructions have happened. -/
structure RaceState where
  cache : Option Pool
  pcA : TaskPc
  pcB : TaskPc
  fetchCount : Nat
  constructCount : Nat
deriving DecidableEq, Repr

/-- Advance one task by one scheduler step of `getPool` (with a fixed
successfully-fetched pool value `p`): at `start`, a non-null cache returns
it immediately, otherwise the task begins the secrets fetch and suspends;
at `awaitingSecret` it constructs the pool and stores it in the cache. -/
def stepTask (p : Pool) (pc : TaskPc) (cache : Option Pool) (f c : Nat) :
    TaskPc × Option Pool × Nat × Nat :=
  match pc with
  | TaskPc.start =>
    match cache with
    | some q => (TaskPc.done, some q, f, c)
    | none => (TaskPc.awaitingSecret, none, f + 1, c)
  | TaskPc.awaitingSecret => (TaskPc.done, some p, f, c + 1)
  | TaskPc.done => (TaskPc.done, cache, f, c)

/-- Run one scheduler step for task A (`true`) or task B (`false`). -/
def raceStep (p : Pool) (st : RaceState) (tid : Bool) : RaceState :=
  if tid then
    match stepTask p st.pcA st.cache st.fetchCount st.constructCount with
    | (pc, cache, f, c) => ⟨cache, pc, st.pcB, f, c⟩
  else
    match stepTask p st.pcB st.cache st.fetchCount st.constructCount with
    | (pc, cache, f, c) => ⟨cache, st.pcA, pc, f, c⟩

/-- Run a schedule (list of task ids) from a state. -/
def raceRun (p : Pool) : List Bool → RaceState → RaceState
  | [], st => st
  | tid :: rest, st => raceRun p rest (raceStep p st tid)

/-- Fresh process: empty cache, both tasks at their first call, no
external calls yet. -/
def raceInit : RaceState :=
  ⟨none, TaskPc.start, TaskPc.start, 0, 0⟩

/-- A concrete pool value for closed-instance runs of the race model. -/
def examplePool : Pool :=
  ⟨"db.example.internal", 5432, "spacefinder", "postgres", "pw", 5, 30000, 10000⟩

/-- A concrete unmarshalled image with string id, name and location,
no capacity and no photoUrl attribute. -/
def mkImage (idv nm : String) : Image :=
  ⟨some (DbValue.str idv), some (DbValue.str nm),
   some (DbValue.str "loc"), none, none⟩

/-- A concrete MODIFY stream record carrying `mkImage idv nm` as NewImage. -/
def mkUpdate (idv nm : String) : StreamRecord :=
  ⟨"evt-" ++ idv, "MODIFY", some ⟨some (mkImage idv nm), none⟩⟩

/-- A concrete REMOVE stream record carrying `mkImage idv nm` as OldImage. -/
def mkRemove (idv nm : String) : StreamRecord :=
  ⟨"evt-rm-" ++ idv, "REMOVE", some ⟨none, some (mkImage idv nm)⟩⟩

/-- The `created_at` a fresh upsert into `t` at time `now` ends up with:
the stored one if the key is already present, else `now`. -/
def createdAfter (t : Table) (i : DbValue) (now : Nat) : Nat :=
  match findRow t i with
  | some r => r.created_at
  | none => now

theorem sqlEq_refl {a : DbValue} (h : a ≠ DbValue.null) : sqlEq a a = true := by
  cases a <;> simp [sqlEq] at h ⊢

theorem findRow_upsertRows (t : Table) (i nm loc cap : DbValue) (now : Nat)
    (h : i ≠ DbValue.null) :
    findRow (upsertRows t i nm loc cap now) i =
      some ⟨nm, loc, cap, createdAfter t i now, now⟩ := by
  induction t with
  | nil => simp [upsertRows, findRow, createdAfter, sqlEq_refl h]
  | cons hd tl ih =>
    obtain ⟨k, r⟩ := hd
    by_cases hk : sqlEq k i = true
    · simp [upsertRows, findRow, hk, createdAfter]
    · simp only [upsertRows, findRow, createdAfter, hk] at ih ⊢
      simp [hk, ih]

theorem upsertRows_twice (t : Table) (i nm loc cap : DbValue) (t1 t2 : Nat)
    (h : i ≠ DbValue.null) :
    upsertRows (upsertRows t i nm loc cap t1) i nm loc cap t2 =
      setUpdatedAt (upsertRows t i nm loc cap t1) i t2 := by
  induction t with
  | nil => simp [upsertRows, setUpdatedAt, sqlEq_refl h]
  | cons hd tl ih =>
    obtain ⟨k, r⟩ := hd
    by_cases hk : sqlEq k i = true
    · simp [upsertRows, setUpdatedAt, hk]
    · simp [upsertRows, setUpdatedAt, hk, ih]

theorem setUpdatedAt_upsertRows (t : Table) (i nm loc cap : DbValue) (now : Nat)
    (h : i ≠ DbValue.null) :
    setUpdatedAt (upsertRows t i nm loc cap now) i now = upsertRows t i nm loc cap now := by
  induction t with
  | nil => simp [upsertRows, setUpdatedAt, sqlEq_refl h]
  | cons hd tl ih =>
    obtain ⟨k, r⟩ := hd
    by_cases hk : sqlEq k i = true
    · simp [upsertRows, setUpdatedAt, hk]
    · simp [upsertRows, setUpdatedAt, hk, ih]

theorem deleteRows_of_absent (t : Table) (i : DbValue) (h : findRow t i = none) :
    deleteRows t i = t := by
  induction t with
  | nil => simp [deleteRows]
  | cons hd tl ih =>
    obtain ⟨k, r⟩ := hd
    by_cases hk : sqlEq k i = true
    · simp [findRow, hk] at h
    · simp only [findRow, hk] at h
      simp [deleteRows, hk, ih h]

theorem findRow_deleteRows (t : Table) (i : DbValue) :
    findRow (deleteRows t i) i = none := by
  induction t with
  | nil => simp [deleteRows, findRow]
  | cons hd tl ih =>
    obtain ⟨k, r⟩ := hd
    by_cases hk : sqlEq k i = true
    · simp [deleteRows, hk, ih]
    · simp [deleteRows, findRow, hk, ih]

theorem deleteRows_idem (t : Table) (i : DbValue) :
    deleteRows (deleteRows t i) i = deleteRows t i :=
  deleteRows_of_absent _ _ (findRow_deleteRows t i)

theorem findRow_applyUpsert (tbl : Table) (img : Image) (now : Nat)
    (h : param img.id ≠ DbValue.null) :
    findRow (applyUpsert tbl img now) (param img.id)
      = some ⟨param img.name, param img.location, jsOrNull img.photoUrl,
              createdAfter tbl (param img.id) now, now⟩ :=
  findRow_upsertRows tbl (param img.id) (param img.name) (param img.location)
    (jsOrNull img.photoUrl) now h

/-- Concrete failing input for the capacity-column claim: an image whose
`capacity` attribute is the number 10 and whose `photoUrl` attribute is a
URL string. -/
def imgC1 : Image :=
  ⟨some (DbValue.str "s1"), some (DbValue.str "Desk A"), some (DbValue.str "Lima"),
   some (DbValue.num 10), some (DbValue.str "https://example.com/a.png")⟩

/-- Claim C1: the upsert is supposed to write `newImage.capacity` into the
sink's `capacity` column; the source binds `newImage.photoUrl || null` as
parameter `$4` of the statement, so the column actually receives the photo
URL and the capacity attribute is dropped.  Evaluated at `imgC1`: the
stored `capacity` column holds the URL string, not the number 10. -/
theorem claim1_capacity_column_receives_photoUrl :
    Option.map Row.capacity (findRow (applyUpsert [] imgC1 7) (DbValue.str "s1"))
      = some (DbValue.str "https://example.com/a.png")
    ∧ Option.map Row.capacity (findRow (applyUpsert [] imgC1 7) (DbValue.str "s1"))
      ≠ some (DbValue.num 10) := by
  decide

/-- Claim C2 (counterexample): with a two-record batch whose first sink
operation fails, the handler neither returns a `BatchResult` nor continues:
the run is a bare rethrown error, and in particular it is not the success
that processing both records would have produced. -/
theorem claim2_counterexample :
    runRecords (fun i => i == 0) (fun i => i) [mkUpdate "1" "A", mkUpdate "2" "B"] 0 []
      = Except.error ()
    ∧ runRecords (fun i => i == 0) (fun i => i) [mkUpdate "1" "A", mkUpdate "2" "B"] 0 []
      ≠ Except.ok (applyUpsert (applyUpsert [] (mkImage "1" "A") 0) (mkImage "2" "B") 1) := by
  decide

/-- Claim C2 (amended): when the sink operation of a record fails, the
record's error is not converted into a per-record result; the try/catch
merely logs and rethrows, so the whole invocation fails at that point and
no later record of the batch is processed (the outcome is the bare error,
independent of the remaining records and of the accumulated table). -/
theorem claim2_amended_sink_error_aborts_batch
    (fail : Nat → Bool) (clock : Nat → Nat) (r : StreamRecord) (rs : List StreamRecord)
    (i : Nat) (tbl : Table) (hq : touchesSink r = true) (hf : fail i = true) :
    runRecords fail clock (r :: rs) i tbl = Except.error () := by
  unfold touchesSink at hq
  by_cases h1 : r.eventName = "INSERT" ∨ r.eventName = "MODIFY"
  · simp only [h1, if_true] at hq
    obtain ⟨img, himg⟩ := Option.isSome_iff_exists.mp hq
    simp [runRecords, h1, himg, hf]
  · by_cases h2 : r.eventName = "REMOVE"
    · simp only [h1, h2, if_false, if_true] at hq
      obtain ⟨img, himg⟩ := Option.isSome_iff_exists.mp hq
      simp [runRecords, h1, h2, himg, hf]
    · simp [h1, h2] at hq

/-- Witness for the amended C2 theorem at a concrete batch. -/
theorem claim2_amended_witness :
    runRecords (fun i => i == 0) (fun i => i) [mkUpdate "1" "A"] 0 [] = Except.error () :=
  claim2_amended_sink_error_aborts_batch (fun i => i == 0) (fun i => i)
    (mkUpdate "1" "A") [] 0 [] (by decide) (by decide)

/-- Claim C3 (counterexample): applying the same MODIFY event twice in
succession (processing times 0 then 1) does not leave the sink identical
to applying it once: the duplicate refreshes `updated_at` to the later
clock value. -/
theorem claim3_counterexample :
    runRecords (fun _ => false) (fun i => i) [mkUpdate "1" "A", mkUpdate "1" "A"] 0 []
      ≠ runRecords (fun _ => false) (fun i => i) [mkUpdate "1" "A"] 0 [] := by
  decide

/-- Claim C3 (amended): a duplicate upsert of the same image is idempotent
up to the `updated_at` column: the second application changes nothing but
`updated_at`, which takes the second processing time; in particular, with
equal processing times the two states coincide exactly. -/
theorem claim3_amended_upsert_idempotent_up_to_updatedAt
    (tbl : Table) (img : Image) (t1 t2 : Nat) (h : param img.id ≠ DbValue.null) :
    applyUpsert (applyUpsert tbl img t1) img t2
      = setUpdatedAt (applyUpsert tbl img t1) (param img.id) t2
    ∧ applyUpsert (applyUpsert tbl img t1) img t1 = applyUpsert tbl img t1 := by
  constructor
  · exact upsertRows_twice tbl (param img.id) (param img.name) (param img.location)
      (jsOrNull img.photoUrl) t1 t2 h
  · have h2 := upsertRows_twice tbl (param img.id) (param img.name) (param img.location)
      (jsOrNull img.photoUrl) t1 t1 h
    have h3 := setUpdatedAt_upsertRows tbl (param img.id) (param img.name)
      (param img.location) (jsOrNull img.photoUrl) t1 h
    exact h2.trans h3

/-- Witness for the amended C3 theorem at a concrete image and times. -/
theorem claim3_amended_witness :
    applyUpsert (applyUpsert [] (mkImage "1" "A") 0) (mkImage "1" "A") 1
      = setUpdatedAt (applyUpsert [] (mkImage "1" "A") 0) (param (mkImage "1" "A").id) 1
    ∧ applyUpsert (applyUpsert [] (mkImage "1" "A") 0) (mkImage "1" "A") 0
      = applyUpsert [] (mkImage "1" "A") 0 :=
  claim3_amended_upsert_idempotent_up_to_updatedAt [] (mkImage "1" "A") 0 1 (by decide)

/-- A pre-existing sink row used as the concrete input for claim C4. -/
def rowC4 : Row := ⟨DbValue.str "old", DbValue.str "oldloc", DbValue.null, 0, 0⟩

/-- The sink containing `rowC4` under key "1". -/
def tblC4 : Table := [(DbValue.str "1", rowC4)]

/-- Claim C4 (counterexample): upserting onto the existing key "1" at time 5
does not overwrite `created_at` with the new value: the column is absent
from the DO UPDATE SET list, so it keeps its previous value 0. -/
theorem claim4_counterexample :
    Option.map Row.created_at (findRow (applyUpsert tblC4 (mkImage "1" "A") 5) (DbValue.str "1"))
      = some 0
    ∧ Option.map Row.created_at (findRow (applyUpsert tblC4 (mkImage "1" "A") 5) (DbValue.str "1"))
      ≠ some 5 := by
  decide

/-- Claim C4 (amended): when the key already exists, the upsert overwrites
`name`, `location` and `capacity` with the bound values and refreshes
`updated_at` to the processing time, while `created_at` keeps the previous
row's value. -/
theorem claim4_amended_conflict_update_preserves_createdAt
    (tbl : Table) (img : Image) (now : Nat) (r : Row)
    (h : param img.id ≠ DbValue.null)
    (hr : findRow tbl (param img.id) = some r) :
    findRow (applyUpsert tbl img now) (param img.id)
      = some ⟨param img.name, param img.location, jsOrNull img.photoUrl,
              r.created_at, now⟩ := by
  have h2 := findRow_applyUpsert tbl img now h
  rw [h2]
  simp [createdAfter, hr]

/-- Witness for the amended C4 theorem at the concrete sink `tblC4`. -/
theorem claim4_amended_witness :
    findRow (applyUpsert tblC4 (mkImage "1" "A") 5) (param (mkImage "1" "A").id)
      = some ⟨param (mkImage "1" "A").name, param (mkImage "1" "A").location,
              jsOrNull (mkImage "1" "A").photoUrl, rowC4.created_at, 5⟩ :=
  claim4_amended_conflict_update_preserves_createdAt tblC4 (mkImage "1" "A") 5 rowC4
    (by decide) (by decide)

/-- Claim C5: processing a REMOVE record whose keyed row is absent is a
no-op success: the run returns `ok` with the sink unchanged; moreover a
second delete after a successful first one changes nothing and leaves the
keyed row absent. -/
theorem claim5_remove_absent_noop
    (clock : Nat → Nat) (tbl : Table) (r : StreamRecord) (img : Image)
    (hev : r.eventName = "REMOVE")
    (himg : Option.bind r.dynamodb StreamImages.OldImage = some img)
    (habs : findRow tbl (param img.id) = none) :
    runRecords (fun _ => false) clock [r] 0 tbl = Except.ok tbl
    ∧ applyRemove (applyRemove tbl img) img = applyRemove tbl img
    ∧ findRow (applyRemove tbl img) (param img.id) = none := by
  refine ⟨?_, ?_, ?_⟩
  · have hne : ¬ (r.eventName = "INSERT" ∨ r.eventName = "MODIFY") := by
      rw [hev]; decide
    simp [runRecords, hne, hev, himg, applyRemove,
          deleteRows_of_absent tbl (param img.id) habs]
  · exact deleteRows_idem tbl (param img.id)
  · exact findRow_deleteRows tbl (param img.id)

/-- Witness for the C5 theorem at a concrete REMOVE record and empty sink. -/
theorem claim5_witness :
    runRecords (fun _ => false) (fun i => i) [mkRemove "9" "Z"] 0 [] = Except.ok []
    ∧ applyRemove (applyRemove [] (mkImage "9" "Z")) (mkImage "9" "Z")
        = applyRemove [] (mkImage "9" "Z")
    ∧ findRow (applyRemove [] (mkImage "9" "Z")) (param (mkImage "9" "Z").id) = none :=
  claim5_remove_absent_noop (fun i => i) [] (mkRemove "9" "Z") (mkImage "9" "Z")
    rfl rfl rfl

/-- Claim C6: a malformed record — INSERT/MODIFY without a NewImage, or
REMOVE without an OldImage — is skipped: no sink operation happens for it
and the run continues with the remaining records on the unchanged table. -/
theorem claim6_malformed_record_skipped
    (fail : Nat → Bool) (clock : Nat → Nat) (r : StreamRecord) (rs : List StreamRecord)
    (i : Nat) (tbl : Table)
    (h : ((r.eventName = "INSERT" ∨ r.eventName = "MODIFY")
            ∧ Option.bind r.dynamodb StreamImages.NewImage = none)
         ∨ (r.eventName = "REMOVE"
            ∧ Option.bind r.dynamodb StreamImages.OldImage = none)) :
    runRecords fail clock (r :: rs) i tbl = runRecords fail clock rs (i + 1) tbl := by
  rcases h with ⟨h1, h2⟩ | ⟨h1, h2⟩
  · simp [runRecords, h1, h2]
  · have hne : ¬ (r.eventName = "INSERT" ∨ r.eventName = "MODIFY") := by
      rw [h1]; decide
    simp [runRecords, hne, h1, h2]

/-- Witness for the C6 theorem: an INSERT record with no `dynamodb` member
is skipped and the rest of the batch still runs. -/
theorem claim6_witness :
    runRecords (fun _ => false) (fun i => i)
        [⟨"e1", "INSERT", none⟩, mkUpdate "2" "B"] 0 []
      = runRecords (fun _ => false) (fun i => i) [mkUpdate "2" "B"] 1 [] :=
  claim6_malformed_record_skipped (fun _ => false) (fun i => i)
    ⟨"e1", "INSERT", none⟩ [mkUpdate "2" "B"] 0 [] (Or.inl ⟨Or.inl rfl, rfl⟩)

/-- Claim C7: events are applied strictly in delivery order: for the batch
`[Update(id=1,name="A"), Update(id=1,name="B")]` the final sink has
`name = "B"` under key "1", and for the reversed batch it has `name = "A"`,
whatever the initial sink and the clock. -/
theorem claim7_order_sensitivity (clock : Nat → Nat) (tbl : Table) :
    Except.map (fun t => Option.map Row.name (findRow t (DbValue.str "1")))
        (runRecords (fun _ => false) clock [mkUpdate "1" "A", mkUpdate "1" "B"] 0 tbl)
      = Except.ok (some (DbValue.str "B"))
    ∧ Except.map (fun t => Option.map Row.name (findRow t (DbValue.str "1")))
        (runRecords (fun _ => false) clock [mkUpdate "1" "B", mkUpdate "1" "A"] 0 tbl)
      = Except.ok (some (DbValue.str "A")) := by
  constructor
  · have h1 : runRecords (fun _ => false) clock [mkUpdate "1" "A", mkUpdate "1" "B"] 0 tbl
        = Except.ok (applyUpsert (applyUpsert tbl (mkImage "1" "A") (clock 0))
            (mkImage "1" "B") (clock 1)) := rfl
    rw [h1]
    have h2 := findRow_applyUpsert (applyUpsert tbl (mkImage "1" "A") (clock 0))
      (mkImage "1" "B") (clock 1) (by decide)
    simp only [show param (mkImage "1" "B").id = DbValue.str "1" from rfl] at h2
    simp [Except.map, h2]
    rfl
  · have h1 : runRecords (fun _ => false) clock [mkUpdate "1" "B", mkUpdate "1" "A"] 0 tbl
        = Except.ok (applyUpsert (applyUpsert tbl (mkImage "1" "B") (clock 0))
            (mkImage "1" "A") (clock 1)) := rfl
    rw [h1]
    have h2 := findRow_applyUpsert (applyUpsert tbl (mkImage "1" "B") (clock 0))
      (mkImage "1" "A") (clock 1) (by decide)
    simp only [show param (mkImage "1" "A").id = DbValue.str "1" from rfl] at h2
    simp [Except.map, h2]
    rfl

/-- Claim C8: `getPool` with a cached handle returns it unchanged with no
external calls; with an empty cache and a successful fetch it performs
exactly one secrets fetch and one pool construction, caching the result,
and the constructed pool's maximum size is the fixed bound 5. -/
theorem claim8_pool_cached_and_bounded :
    (∀ env fetch p, getPool env fetch (some p)
        = (Except.ok p, some p, ([] : List SideEffect)))
    ∧ (∀ env s, getPool env (Except.ok s) none
        = (Except.ok (mkPool env s), some (mkPool env s),
           [SideEffect.secretsFetch, SideEffect.poolConstruct]))
    ∧ (∀ env s, (mkPool env s).max = 5) :=
  ⟨fun _ _ _ => rfl, fun _ _ => rfl, fun _ _ => rfl⟩

/-- Claim C9 (counterexample): under the interleaving in which both tasks
pass the null check before either stores the pool (schedule A, B, A, B),
two secrets fetches occur — the claimed at-most-one bound fails. -/
theorem claim9_counterexample :
    ¬ (raceRun examplePool [true, false, true, false] raceInit).fetchCount ≤ 1 := by
  decide

/-- Claim C9 (amended): `getPool` has no single-flight guard, only the
initial null check.  If two first calls overlap (both observe the empty
cache), each performs its own secrets fetch and pool construction, the
later store overwriting the earlier; only when the first call completes
before the second begins does a single fetch and construction occur, the
second call then hitting the cache. -/
theorem claim9_amended_no_single_flight :
    (raceRun examplePool [true, false, true, false] raceInit).fetchCount = 2
    ∧ (raceRun examplePool [true, false, true, false] raceInit).constructCount = 2
    ∧ (raceRun examplePool [true, true, false, false] raceInit).fetchCount = 1
    ∧ (raceRun examplePool [true, true, false, false] raceInit).constructCount = 1
    ∧ (raceRun examplePool [true, true, false, false] raceInit).cache = some examplePool := by
  decide

/-- Claim C10: a record whose `eventName` is none of INSERT, MODIFY, REMOVE
falls through both branches: the sink is untouched and the run continues
with the remaining records. -/
theorem claim10_unknown_event_skipped
    (fail : Nat → Bool) (clock : Nat → Nat) (r : StreamRecord) (rs : List StreamRecord)
    (i : Nat) (tbl : Table)
    (h1 : r.eventName ≠ "INSERT") (h2 : r.eventName ≠ "MODIFY")
    (h3 : r.eventName ≠ "REMOVE") :
    runRecords fail clock (r :: rs) i tbl = runRecords fail clock rs (i + 1) tbl := by
  have hne : ¬ (r.eventName = "INSERT" ∨ r.eventName = "MODIFY") := by
    rintro (h | h)
    · exact h1 h
    · exact h2 h
  simp [runRecords, hne, h3]

/-- Witness for the C10 theorem: a record of kind "PING", even one carrying
images, is skipped and the rest of the batch still runs. -/
theorem claim10_witness :
    runRecords (fun _ => false) (fun i => i)
        [⟨"e2", "PING", some ⟨some (mkImage "1" "A"), some (mkImage "1" "A")⟩⟩,
         mkUpdate "2" "B"] 0 []
      = runRecords (fun _ => false) (fun i => i) [mkUpdate "2" "B"] 1 [] :=
  claim10_unknown_event_skipped (fun _ => false) (fun i => i)
    ⟨"e2", "PING", some ⟨some (mkImage "1" "A"), some (mkImage "1" "A")⟩⟩
    [mkUpdate "2" "B"] 0 []
    (by decide) (by decide) (by decide)
